import Mathlib

/-!
Shallow embedding of the core of `citibike-d3-frontend`:

* `TripSim` embeds `src/utils/TripSimulator.ts` (the virtual-clock replay
  engine and its notification bus).  Timestamps are modelled as rationals
  (milliseconds since an arbitrary epoch): the source stores ISO strings and
  compares them through `new Date(...).getTime()`, which is an integer
  millisecond value; speeds are rationals as well.  Timer side effects
  (`setInterval` / `clearInterval`) are modelled by recording whether an
  interval is installed and with which period; the interval callback itself
  is embedded as the pure step function `tick`.  `broadcast` appends the
  emitted message to the trace returned by each operation, since the source
  delivers the same message to every subscriber.
* `WS` embeds the connection state machine of `useWebSocket`
  (`src/hooks/useWebSocket.ts`): channels are numbered as they are created,
  and the browser callbacks (`onopen`, `onclose`, `onerror`) are separate
  transition functions, as they fire asynchronously in the source.
* `Realtime` embeds the active-trip bookkeeping of `useRealtimeTrips`
  (`updateAnimations` and the `new_trips` handler), with the `Map` of active
  trips modelled as an association list.
-/

namespace TripSim

/-- Event record replayed by the simulator (interface `Trip` in
`TripSimulator.ts`); `started_at`/`ended_at` are millisecond timestamps. -/
structure Trip where
  trip_id : Option String
  started_at : ℚ
  ended_at : ℚ
  start_station_id : String
  end_station_id : String
deriving DecidableEq

/-- The seven message tags of `SimulatorMessage.type`. -/
inductive MsgType
  | new_trips
  | simulation_started
  | simulation_stopped
  | simulation_paused
  | simulation_resumed
  | speed_changed
  | simulation_complete
deriving DecidableEq

/-- Progress payload attached to `new_trips` messages. -/
structure SimulatorProgress where
  current : Nat
  total : Nat
  percentage : ℤ
deriving DecidableEq

/-- Payload carried in the `data` field of a message. -/
inductive MsgData
  | none
  | trips (batch : List Trip)
  | totalTrips (n : Nat)
  | speed (v : ℚ)
deriving DecidableEq

/-- A broadcast message (`SimulatorMessage` in the source); `timestamp` is
the wall-clock time at which `broadcast` stamped it. -/
structure SimulatorMessage where
  type : MsgType
  data : MsgData
  progress : Option SimulatorProgress
  timestamp : ℚ
deriving DecidableEq

/-- Mutable state of a `TripSimulator` instance.  `intervalPeriod` is
`some p` exactly when `intervalId` is non-null in the source, `p` being the
period passed to `setInterval`. -/
structure SimulatorState where
  trips : List Trip
  speed : ℚ
  batchSize : Nat
  currentIndex : Nat
  isRunning : Bool
  startTime : Option ℚ
  simulationStartTime : Option ℚ
  intervalPeriod : Option ℚ
deriving DecidableEq

/-- Timestamp of `trips[0]`, read by `getNextBatch` on lazy initialisation
(only reached when the log is non-empty). -/
def firstStart : List Trip → ℚ
  | [] => 0
  | t :: _ => t.started_at

/-- Constructor: sorts the log by `started_at` (stable, as `Array.sort` is),
and applies the `||` defaults `speed: 1`, `batchSize: 5` (a supplied `0` is
falsy in JavaScript, hence replaced by the default). -/
def mkSimulator (trips : List Trip) (speedOpt : Option ℚ) (batchSizeOpt : Option Nat) :
    SimulatorState :=
  { trips := trips.insertionSort (fun a b => a.started_at ≤ b.started_at)
    speed := match speedOpt with
      | Option.none => 1
      | some v => if v = 0 then 1 else v
    batchSize := match batchSizeOpt with
      | Option.none => 5
      | some b => if b = 0 then 5 else b
    currentIndex := 0
    isRunning := false
    startTime := Option.none
    simulationStartTime := Option.none
    intervalPeriod := Option.none }

/-- The period `Math.max(50, 100 / this.speed)` used by `start`. -/
def tickPeriod (speed : ℚ) : ℚ := max 50 (100 / speed)

/-- `stop()`: unconditionally halts the interval, clears `isRunning`, and
broadcasts `simulation_stopped`. -/
def stop (s : SimulatorState) (now : ℚ) : SimulatorState × List SimulatorMessage :=
  ({ s with isRunning := false, intervalPeriod := Option.none },
   [{ type := MsgType.simulation_stopped, data := MsgData.none,
      progress := Option.none, timestamp := now }])

/-- The `while` loop of `getNextBatch`: starting with `accLen` events already
in the batch, consume events whose `started_at` is at most `target`, breaking
once the batch length reaches `batchSize`. -/
def collectBatch (rest : List Trip) (target : ℚ) (batchSize : Nat) (accLen : Nat) :
    List Trip :=
  match rest with
  | [] => []
  | t :: ts =>
    if t.started_at ≤ target then
      if batchSize ≤ accLen + 1 then [t]
      else t :: collectBatch ts target batchSize (accLen + 1)
    else []

/-- `getNextBatch()`: returns the batch, the updated state, and the messages
broadcast during the call (non-empty only on the completion path, where
`stop()` is invoked and `simulation_complete` is broadcast). -/
def getNextBatch (s : SimulatorState) (now : ℚ) :
    List Trip × SimulatorState × List SimulatorMessage :=
  if s.trips.length ≤ s.currentIndex then
    let r := stop s now
    ([], r.1,
     r.2 ++ [{ type := MsgType.simulation_complete, data := MsgData.none,
               progress := Option.none, timestamp := now }])
  else
    let s1 := match s.startTime with
      | Option.none =>
          { s with startTime := some (firstStart s.trips), simulationStartTime := some now }
      | some _ => s
    let v0 := s1.startTime.getD 0
    let w0 := s1.simulationStartTime.getD now
    let target := v0 + (now - w0) * s1.speed
    let batch := collectBatch (s1.trips.drop s1.currentIndex) target s1.batchSize 0
    (batch, { s1 with currentIndex := s1.currentIndex + batch.length }, [])

/-- Body of the `setInterval` callback installed by `start`: fetch a batch
and, when non-empty, broadcast `new_trips` with the progress payload. -/
def tick (s : SimulatorState) (now : ℚ) : SimulatorState × List SimulatorMessage :=
  let r := getNextBatch s now
  if r.1.length > 0 then
    (r.2.1,
     r.2.2 ++
       [{ type := MsgType.new_trips, data := MsgData.trips r.1,
          progress := some
            { current := r.2.1.currentIndex
              total := r.2.1.trips.length
              percentage :=
                round (((r.2.1.currentIndex : ℚ) / (r.2.1.trips.length : ℚ)) * 100) }
          timestamp := now }])
  else (r.2.1, r.2.2)

/-- `start()`: no-op when already running; otherwise sets `isRunning`,
broadcasts `simulation_started` with the total trip count, and installs the
interval with period `tickPeriod`. -/
def start (s : SimulatorState) (now : ℚ) : SimulatorState × List SimulatorMessage :=
  if s.isRunning then (s, [])
  else
    ({ s with isRunning := true, intervalPeriod := some (tickPeriod s.speed) },
     [{ type := MsgType.simulation_started, data := MsgData.totalTrips s.trips.length,
        progress := Option.none, timestamp := now }])

/-- `pause()`: no-op when not running; otherwise clears the interval and
broadcasts `simulation_paused`. -/
def pause (s : SimulatorState) (now : ℚ) : SimulatorState × List SimulatorMessage :=
  if s.isRunning then
    ({ s with isRunning := false, intervalPeriod := Option.none },
     [{ type := MsgType.simulation_paused, data := MsgData.none,
        progress := Option.none, timestamp := now }])
  else (s, [])

/-- `resume()`: returns immediately when running; otherwise recomputes
`simulationStartTime := now - (now - simulationStartTime) / speed` (when it
is set), calls `start()`, and broadcasts `simulation_resumed`. -/
def resume (s : SimulatorState) (now : ℚ) : SimulatorState × List SimulatorMessage :=
  if s.isRunning then (s, [])
  else
    let s1 := match s.simulationStartTime with
      | some w0 => { s with simulationStartTime := some (now - (now - w0) / s.speed) }
      | Option.none => s
    let r := start s1 now
    (r.1,
     r.2 ++ [{ type := MsgType.simulation_resumed, data := MsgData.none,
               progress := Option.none, timestamp := now }])

/-- `reset()`: `stop()`, then rewind the cursor and both origins, then
broadcast a second `simulation_stopped` (the source reuses the tag). -/
def reset (s : SimulatorState) (now : ℚ) : SimulatorState × List SimulatorMessage :=
  let r := stop s now
  ({ r.1 with currentIndex := 0, startTime := Option.none,
              simulationStartTime := Option.none },
   r.2 ++ [{ type := MsgType.simulation_stopped, data := MsgData.none,
             progress := Option.none, timestamp := now }])

/-- The clamp `Math.max(0.1, Math.min(50, newSpeed))` applied by `setSpeed`. -/
def clampSpeed (v : ℚ) : ℚ := max (1/10) (min 50 v)

/-- `setSpeed(v)`: pauses when running, stores the clamped speed, resumes
when it was running, and broadcasts `speed_changed` with the stored speed. -/
def setSpeed (s : SimulatorState) (now : ℚ) (newSpeed : ℚ) :
    SimulatorState × List SimulatorMessage :=
  let wasRunning := s.isRunning
  let r1 := if wasRunning then pause s now else (s, [])
  let s2 := { r1.1 with speed := clampSpeed newSpeed }
  let r3 := if wasRunning then resume s2 now else (s2, [])
  (r3.1,
   r1.2 ++ r3.2 ++
     [{ type := MsgType.speed_changed, data := MsgData.speed s2.speed,
        progress := Option.none, timestamp := now }])

/-- Virtual time determined by the replay-session state at wall time `now`:
`virtual-origin + (now - wall-clock-origin) * speed`, the quantity
`getNextBatch` computes as `targetSimulationTime`.  Undefined before the
first tick initialises the origins. -/
def virtualTime (s : SimulatorState) (now : ℚ) : Option ℚ :=
  match s.startTime, s.simulationStartTime with
  | some v0, some w0 => some (v0 + (now - w0) * s.speed)
  | _, _ => Option.none

end TripSim

namespace WS

/-- Connection states of `useWebSocket` (`ConnectionStatus` in the source). -/
inductive ConnectionStatus
  | Disconnected
  | Connecting
  | Connected
  | Error
deriving DecidableEq

/-- State of the `useWebSocket` hook.  Channels are numbered in creation
order: `created` lists every channel ever constructed, `closedChannels`
those on which `close()` was called, `wsRef` the channel currently held in
`wsRef.current`, and `socket` the React `socket` state (set on open, cleared
on close). -/
structure WSState where
  connectionStatus : ConnectionStatus
  socket : Option Nat
  wsRef : Option Nat
  created : List Nat
  closedChannels : List Nat
  nextId : Nat
deriving DecidableEq

/-- Hook state before any call: disconnected, no channel. -/
def initialWSState : WSState :=
  { connectionStatus := ConnectionStatus.Disconnected
    socket := Option.none
    wsRef := Option.none
    created := []
    closedChannels := []
    nextId := 0 }

/-- `connect()`: sets status to Connecting, constructs a new channel and
stores it in `wsRef.current`.  `ctorOk` is false when the `WebSocket`
constructor throws, in which case the `catch` sets status to Error and no
channel is created.  The previous channel, if any, is neither closed nor
reachable afterwards. -/
def connect (st : WSState) (ctorOk : Bool) : WSState :=
  if ctorOk then
    { st with connectionStatus := ConnectionStatus.Connecting
              wsRef := some st.nextId
              created := st.created ++ [st.nextId]
              nextId := st.nextId + 1 }
  else { st with connectionStatus := ConnectionStatus.Error }

/-- `disconnect()`: when a channel is held, calls `close()` on it and clears
the ref; otherwise does nothing.  The connection status is not touched. -/
def disconnect (st : WSState) : WSState :=
  match st.wsRef with
  | some id =>
      { st with closedChannels := st.closedChannels ++ [id], wsRef := Option.none }
  | Option.none => st

/-- The `ws.onopen` callback of the channel `id`: status Connected, publish
the socket. -/
def onopen (st : WSState) (id : Nat) : WSState :=
  { st with connectionStatus := ConnectionStatus.Connected, socket := some id }

/-- The `ws.onclose` callback: status Disconnected, clear the socket.  This
is the only place the hook ever sets status to Disconnected. -/
def onclose (st : WSState) : WSState :=
  { st with connectionStatus := ConnectionStatus.Disconnected, socket := Option.none }

/-- The `ws.onerror` callback: status Error. -/
def onerror (st : WSState) : WSState :=
  { st with connectionStatus := ConnectionStatus.Error }

end WS

namespace TripSim

/-- A subscriber of the notification bus, for the fan-out model: its
callback either records the delivered message in `received` or raises. -/
structure Observer where
  raises : Bool
  received : List SimulatorMessage
deriving DecidableEq

/-- One `callback(fullMessage)` call: a raising observer throws, any other
appends the message to its record. -/
def invokeObserver (o : Observer) (m : SimulatorMessage) : Except String Observer :=
  if o.raises then Except.error "Subscriber callback error"
  else Except.ok { o with received := o.received ++ [m] }

/-- `broadcast`'s `forEach` with the per-callback `try`/`catch`: every
observer is invoked; an exception is caught, logged (collected in the second
component) and iteration continues with the next observer. -/
def broadcastToObservers : List Observer → SimulatorMessage → List Observer × List String
  | [], _ => ([], [])
  | o :: os, m =>
    let rest := broadcastToObservers os m
    match invokeObserver o m with
    | Except.ok o' => (o' :: rest.1, rest.2)
    | Except.error e => (o :: rest.1, e :: rest.2)

end TripSim

namespace Realtime

open TripSim

/-- An active trip in `useRealtimeTrips` (`AnimatedTrip`): the trip plus the
wall time at which its animation started and its current progress. -/
structure AnimatedTrip where
  trip : Trip
  animationStartTime : ℚ
  isActive : Bool
  progress : ℚ
deriving DecidableEq

/-- The active-trip update of `updateAnimations`: for each entry, progress is
`Math.min(elapsed / tripDuration, 1)`; entries with progress still below 1
are kept (with the new progress), the rest are evicted.  The `Map` is
modelled as an association list from trip key to entry. -/
def updateAnimations (active : List (String × AnimatedTrip)) (now tripDuration : ℚ) :
    List (String × AnimatedTrip) :=
  active.filterMap (fun e =>
    let elapsed := now - e.2.animationStartTime
    let progress := min (elapsed / tripDuration) 1
    if progress < 1 then some (e.1, { e.2 with progress := progress }) else Option.none)

/-- Insertion performed by the `new_trips` branch of `handleMessage` for a
single trip: the entity enters the active set with `animationStartTime` set
to the observation time and progress 0. -/
def insertActiveTrip (active : List (String × AnimatedTrip)) (key : String) (t : Trip)
    (now : ℚ) : List (String × AnimatedTrip) :=
  (key, { trip := t, animationStartTime := now, isActive := true, progress := 0 }) ::
    active.filter (fun e => e.1 ≠ key)

end Realtime

open TripSim WS Realtime

/-- Simulator built on an empty event log with default options. -/
def emptySim : SimulatorState := mkSimulator [] Option.none Option.none

/-- A running simulator (empty log, defaults, interval installed), as left
by `start`. -/
def runningSim : SimulatorState :=
  { trips := [], speed := 1, batchSize := 5, currentIndex := 0, isRunning := true,
    startTime := Option.none, simulationStartTime := Option.none, intervalPeriod := some 100 }

/-- A running simulator at speed 2 whose origins were initialised at wall
time 0 with first event timestamp 0 (the state after the first tick of a
speed-2 replay). -/
def speedTwoSim : SimulatorState :=
  { trips := [], speed := 2, batchSize := 5, currentIndex := 0, isRunning := true,
    startTime := some 0, simulationStartTime := some 0, intervalPeriod := some 50 }

/-- Hook state after `connect()` succeeded and the channel opened. -/
def connectedWS : WS.WSState := WS.onopen (WS.connect WS.initialWSState true) 0

/-- The batch a tick is specified to consume (phrasing of the spec, to be
compared with `getNextBatch`): the consecutive not-yet-emitted events whose
start timestamp is at most `target`, truncated to at most `batchSize`. -/
def dueBatch (s : SimulatorState) (target : ℚ) : List Trip :=
  ((s.trips.drop s.currentIndex).takeWhile
    (fun t => decide (t.started_at ≤ target))).take s.batchSize

/-- Sample event with start timestamp 0. -/
def tripA : Trip :=
  { trip_id := Option.none, started_at := 0, ended_at := 1,
    start_station_id := "a", end_station_id := "b" }

/-- Sample event with start timestamp 10. -/
def tripB : Trip := { tripA with started_at := 10 }

/-- Sample event with start timestamp 12. -/
def tripC : Trip := { tripA with started_at := 12 }

/-- A mid-replay state: three events all due by virtual time 15, batch size
2, origins at 0, speed 1. -/
def batchSim : SimulatorState :=
  { trips := [tripA, tripB, tripC], speed := 1, batchSize := 2, currentIndex := 0,
    isRunning := true, startTime := some 0, simulationStartTime := some 0,
    intervalPeriod := some 100 }

/-- Sample active entity whose animation started at time 5. -/
def sampleActive : AnimatedTrip :=
  { trip := tripA, animationStartTime := 5, isActive := true, progress := 0 }

/-- C10: the constructor stores the supplied speed without clamping: option
speed 1000 is kept as 1000 (not the clamp value 50) and is what the tick
period and the virtual-time advancement use, while option speed 0 is
replaced by the default 1 (not by the clamp minimum 1/10); the clamp to
`[0.1, 50]` is applied only by `setSpeed`. -/
theorem constructor_speed_unclamped :
    (mkSimulator [] (some 1000) Option.none).speed = 1000 ∧
    clampSpeed 1000 = 50 ∧
    (mkSimulator [] (some 1000) Option.none).speed ≠ clampSpeed 1000 ∧
    (start (mkSimulator [] (some 1000) Option.none) 0).1.intervalPeriod
      = some (tickPeriod 1000) ∧
    tickPeriod 1000 = 50 ∧
    virtualTime
      { mkSimulator [] (some 1000) Option.none with
          startTime := some 0, simulationStartTime := some 0 } 1 = some 1000 ∧
    (mkSimulator [] (some 0) Option.none).speed = 1 ∧
    (1 : ℚ) ≠ 1 / 10 ∧
    (setSpeed (mkSimulator [] (some 1000) Option.none) 0 1000).1.speed = 50 := by
  refine ⟨by norm_num [mkSimulator], by norm_num [clampSpeed], ?_, ?_, ?_, ?_, ?_, ?_, ?_⟩
  · norm_num [mkSimulator, clampSpeed]
  · norm_num [mkSimulator, start]
  · norm_num [tickPeriod]
  · norm_num [mkSimulator, virtualTime]
  · norm_num [mkSimulator]
  · norm_num
  · norm_num [mkSimulator, setSpeed, clampSpeed]

/-- C5, counterexample: calling `resume()` on a running engine broadcasts
nothing — in particular no `simulation_resumed` message — contradicting the
claim that the no-op still broadcasts `session_resumed`. -/
theorem resume_while_running_counterexample :
    (resume runningSim 0).2 = [] ∧
    ¬ ∃ m ∈ (resume runningSim 0).2, m.type = MsgType.simulation_resumed := by
  constructor
  · simp [resume, runningSim]
  · simp [resume, runningSim]

/-- C5, amended: if `resume()` is called while the engine is already
running, it is a complete no-op — the state is unchanged and no message at
all (not even `simulation_resumed`) is broadcast. -/
theorem resume_while_running_noop (s : SimulatorState) (now : ℚ)
    (h : s.isRunning = true) : resume s now = (s, []) := by
  simp [resume, h]

/-- Witness for the amended C5 theorem at a concrete running state. -/
theorem resume_while_running_noop_witness :
    resume runningSim 0 = (runningSim, []) :=
  resume_while_running_noop runningSim 0 rfl

/-- C3, counterexample: starting the engine on an empty log broadcasts
`simulation_started`, and the first tick then broadcasts
`simulation_stopped` followed by `simulation_complete`: a
`simulation_stopped` message stands between `session_started` and
`session_complete`, contradicting the claim that nothing comes between
them. -/
theorem empty_log_trace_counterexample :
    ((start emptySim 0).2 ++ (tick (start emptySim 0).1 50).2).map SimulatorMessage.type
      = [MsgType.simulation_started, MsgType.simulation_stopped,
         MsgType.simulation_complete] ∧
    ((start emptySim 0).2 ++ (tick (start emptySim 0).1 50).2).map SimulatorMessage.type
      ≠ [MsgType.simulation_started, MsgType.simulation_complete] := by
  constructor
  · decide
  · decide

/-- C3, amended: on an empty event log, `start` broadcasts
`session_started`, and the first tick invokes `stop()` — broadcasting
`session_stopped` — immediately followed by `session_complete`; this holds
at whatever wall times the start and the tick occur. -/
theorem empty_log_trace (t0 t1 : ℚ) :
    ((start emptySim t0).2 ++ (tick (start emptySim t0).1 t1).2).map SimulatorMessage.type
      = [MsgType.simulation_started, MsgType.simulation_stopped,
         MsgType.simulation_complete] := by
  simp [start, tick, getNextBatch, stop, emptySim, mkSimulator]

/-- C1: at speed 2 with both origins at 0, pausing at wall time 1000 and
resuming at the same instant changes the virtual time from 2000 to 1000 —
`resume` divides the whole elapsed wall time by the speed instead of
shifting the wall-clock origin by the pause duration, so the invariant
virtual time = virtual-origin + (now − wall-clock-origin) × speed is not
preserved for speeds other than 1; the jump (1000 virtual ms) far exceeds
one tick interval of virtual time (tickPeriod 2 × 2 = 100). -/
theorem resume_rescales_virtual_time :
    virtualTime speedTwoSim 1000 = some 2000 ∧
    virtualTime (resume ((pause speedTwoSim 1000).1) 1000).1 1000 = some 1000 ∧
    tickPeriod 2 * 2 = 100 ∧
    (2000 : ℚ) - 1000 > 100 := by
  refine ⟨?_, ?_, ?_, by norm_num⟩
  · norm_num [virtualTime, speedTwoSim]
  · norm_num [virtualTime, speedTwoSim, pause, resume, start, tickPeriod]
  · norm_num [tickPeriod]

/-- C2, counterexample: two successive `connect()` calls from the initial
state construct two channels, close neither, and change the state — the
second call is not a no-op, contradicting the claim. -/
theorem connect_twice_counterexample :
    WS.connect (WS.connect WS.initialWSState true) true
      ≠ WS.connect WS.initialWSState true ∧
    (WS.connect (WS.connect WS.initialWSState true) true).created.length = 2 ∧
    (WS.connect (WS.connect WS.initialWSState true) true).closedChannels = [] := by
  refine ⟨?_, by decide, by decide⟩
  decide

/-- C2, amended: `connect()` is not guarded by the connection state: from
any state (Connecting and Connected included) a successful call transitions
to Connecting and constructs a fresh channel, storing it in the ref without
closing the previously owned channel — so two calls in a row open two
channels, of which only the latest is still referenced. -/
theorem connect_always_opens_channel (st : WS.WSState) :
    (WS.connect st true).connectionStatus = WS.ConnectionStatus.Connecting ∧
    (WS.connect st true).created = st.created ++ [st.nextId] ∧
    (WS.connect st true).closedChannels = st.closedChannels ∧
    (WS.connect st true).wsRef = some st.nextId := by
  simp [WS.connect]

/-- C4, counterexample: from a Connected state, `disconnect()` closes the
channel but leaves the connection state Connected — it does not
synchronously transition to Disconnected, contradicting the claim. -/
theorem disconnect_keeps_status_counterexample :
    (WS.disconnect connectedWS).connectionStatus = WS.ConnectionStatus.Connected ∧
    (WS.disconnect connectedWS).connectionStatus ≠ WS.ConnectionStatus.Disconnected ∧
    (WS.disconnect connectedWS).closedChannels = [0] := by
  refine ⟨by decide, ?_, by decide⟩
  decide

/-- C4, amended: `disconnect()` closes the owned channel when one exists and
clears the ref, leaving the connection state untouched; the state reaches
Disconnected only when the channel's own close callback fires; with no owned
channel, `disconnect()` is a no-op. -/
theorem disconnect_defers_status (st : WS.WSState) :
    (∀ id, st.wsRef = some id →
      (WS.disconnect st).closedChannels = st.closedChannels ++ [id] ∧
      (WS.disconnect st).wsRef = Option.none ∧
      (WS.disconnect st).connectionStatus = st.connectionStatus) ∧
    (st.wsRef = Option.none → WS.disconnect st = st) ∧
    (WS.onclose st).connectionStatus = WS.ConnectionStatus.Disconnected := by
  refine ⟨?_, ?_, by simp [WS.onclose]⟩
  · intro id hid
    simp [WS.disconnect, hid]
  · intro hid
    simp [WS.disconnect, hid]

/-- Witness for the amended C4 theorem: concrete Connected state with
channel 0 owned, and the no-op case on the initial state. -/
theorem disconnect_defers_status_witness :
    (WS.disconnect connectedWS).closedChannels = [0] ∧
    (WS.disconnect connectedWS).wsRef = Option.none ∧
    (WS.disconnect connectedWS).connectionStatus = connectedWS.connectionStatus ∧
    WS.disconnect WS.initialWSState = WS.initialWSState := by
  obtain ⟨h1, -, -⟩ := disconnect_defers_status connectedWS
  obtain ⟨g1, g2, g3⟩ := h1 0 (by decide)
  exact ⟨g1, g2, g3, (disconnect_defers_status WS.initialWSState).2.1 (by decide)⟩

/-- C6: for every input v, `setSpeed` stores exactly the clamp of v into
[0.1, 50] as the effective speed, ends its broadcast sequence with a
`speed_changed` message carrying the clamped value, and — when the engine
was running — pauses first (broadcasting `simulation_paused`), updates the
speed, then resumes (broadcasting `simulation_started` and
`simulation_resumed`); when it was not running only `speed_changed` is
broadcast, and no input is ever rejected. -/
theorem setSpeed_clamps (s : SimulatorState) (now v : ℚ) :
    (setSpeed s now v).1.speed = clampSpeed v ∧
    clampSpeed v = max (1 / 10) (min 50 v) ∧
    ((setSpeed s now v).2).getLast? = some
      { type := MsgType.speed_changed, data := MsgData.speed (clampSpeed v),
        progress := Option.none, timestamp := now } ∧
    (s.isRunning = true →
      ((setSpeed s now v).2).map SimulatorMessage.type
        = [MsgType.simulation_paused, MsgType.simulation_started,
           MsgType.simulation_resumed, MsgType.speed_changed]) ∧
    (s.isRunning = false →
      ((setSpeed s now v).2).map SimulatorMessage.type = [MsgType.speed_changed]) := by
  cases h : s.isRunning <;>
    cases h2 : s.simulationStartTime <;>
      simp [setSpeed, pause, resume, start, h, h2, clampSpeed]

/-- Witness for the C6 theorem: a running engine receiving `setSpeed 1000`
ends up at effective speed 50 after a pause/start/resume/speed_changed
broadcast sequence. -/
theorem setSpeed_clamps_witness :
    (setSpeed runningSim 0 1000).1.speed = 50 ∧
    ((setSpeed runningSim 0 1000).2).map SimulatorMessage.type
      = [MsgType.simulation_paused, MsgType.simulation_started,
         MsgType.simulation_resumed, MsgType.speed_changed] := by
  obtain ⟨h1, -, -, h4, -⟩ := setSpeed_clamps runningSim 0 1000
  refine ⟨?_, h4 rfl⟩
  rw [h1]
  norm_num [clampSpeed]

/-- C7: `broadcast` delivers the message to every currently subscribed
observer even when some raise: the observer list after a broadcast is the
pointwise map appending the message to every non-raising observer's record
and leaving raising observers caught unchanged, with one error logged per
raising observer — so with three observers of which the second raises, the
first and third still receive the message. -/
theorem broadcast_delivers_to_all (obs : List Observer) (m : SimulatorMessage) :
    (broadcastToObservers obs m).1
      = obs.map (fun o => if o.raises then o
          else { o with received := o.received ++ [m] }) ∧
    (broadcastToObservers obs m).2.length
      = (obs.filter (fun o => o.raises)).length := by
  induction obs with
  | nil => simp [broadcastToObservers]
  | cons o os ih =>
      cases h : o.raises <;>
        simp [broadcastToObservers, invokeObserver, h, ih.1, ih.2]

/-- Helper: the `while` loop of `getNextBatch` consumes exactly the longest
due prefix, truncated to the remaining batch capacity. -/
theorem collectBatch_eq_takeWhile (rest : List Trip) (target : ℚ) (bs k : Nat)
    (h : k < bs) :
    collectBatch rest target bs k
      = (rest.takeWhile (fun t => decide (t.started_at ≤ target))).take (bs - k) := by
  induction rest generalizing k with
  | nil => simp [collectBatch]
  | cons t ts ih =>
      by_cases hd : t.started_at ≤ target
      · by_cases hb : bs ≤ k + 1
        · have hbk : bs - k = 1 := by omega
          simp [collectBatch, hd, hb, hbk]
        · have hk1 : k + 1 < bs := by omega
          have hbk : bs - k = (bs - (k + 1)) + 1 := by omega
          simp [collectBatch, hd, hb, ih (k + 1) hk1, hbk]
      · simp [collectBatch, hd]

/-- C8: with the origins initialised and events remaining, a tick consumes
from the cursor exactly the consecutive due events (start timestamp at most
the target virtual time) truncated to `batchSize`, leaves the remaining due
events for later ticks (the cursor advances by exactly the batch length),
and broadcasts every non-empty batch as `new_trips` with progress
current = new cursor, total = log length, percentage = round(cursor/total × 100). -/
theorem tick_batch_semantics (s : SimulatorState) (now v0 w0 : ℚ)
    (hv : s.startTime = some v0) (hw : s.simulationStartTime = some w0)
    (hidx : s.currentIndex < s.trips.length) (hbs : 1 ≤ s.batchSize) :
    (getNextBatch s now).1 = dueBatch s (v0 + (now - w0) * s.speed) ∧
    (getNextBatch s now).2.1
      = { s with currentIndex :=
            s.currentIndex + (dueBatch s (v0 + (now - w0) * s.speed)).length } ∧
    (getNextBatch s now).2.2 = [] ∧
    (dueBatch s (v0 + (now - w0) * s.speed) ≠ [] →
      (tick s now).2
        = [{ type := MsgType.new_trips,
             data := MsgData.trips (dueBatch s (v0 + (now - w0) * s.speed)),
             progress := some
               { current :=
                   s.currentIndex + (dueBatch s (v0 + (now - w0) * s.speed)).length
                 total := s.trips.length
                 percentage := round
                   ((((s.currentIndex
                        + (dueBatch s (v0 + (now - w0) * s.speed)).length : Nat) : ℚ)
                      / (s.trips.length : ℚ)) * 100) }
             timestamp := now }]) ∧
    (dueBatch s (v0 + (now - w0) * s.speed) = [] → (tick s now).2 = []) := by
  have hnot : ¬ (s.trips.length ≤ s.currentIndex) := by omega
  have hcb : collectBatch (s.trips.drop s.currentIndex)
      (v0 + (now - w0) * s.speed) s.batchSize 0
      = dueBatch s (v0 + (now - w0) * s.speed) := by
    rw [collectBatch_eq_takeWhile _ _ _ _ (by omega)]
    simp [dueBatch]
  have hg : getNextBatch s now
      = (dueBatch s (v0 + (now - w0) * s.speed),
         { s with currentIndex :=
             s.currentIndex + (dueBatch s (v0 + (now - w0) * s.speed)).length }, []) := by
    unfold getNextBatch
    rw [if_neg hnot]
    simp [hv, hw, hcb]
  refine ⟨by rw [hg], by rw [hg], by rw [hg], ?_, ?_⟩
  · intro hne
    unfold tick
    rw [hg]
    simp [List.length_pos.mpr hne]
  · intro he
    unfold tick
    rw [hg]
    simp [he]

/-- Witness for the C8 theorem: three events due by virtual time 15 with
batch size 2 yield the first two events only, cursor 2 of 3, percentage
round(2/3 × 100) = 67. -/
theorem tick_batch_semantics_witness :
    (getNextBatch batchSim 15).1 = [tripA, tripB] ∧
    (getNextBatch batchSim 15).2.1.currentIndex = 2 ∧
    (tick batchSim 15).2
      = [{ type := MsgType.new_trips, data := MsgData.trips [tripA, tripB],
           progress := some { current := 2, total := 3, percentage := 67 },
           timestamp := 15 }] := by
  obtain ⟨h1, h2, -, h4, -⟩ :=
    tick_batch_semantics batchSim 15 0 0 rfl rfl (by decide) (by decide)
  have hdb : dueBatch batchSim (0 + (15 - 0) * batchSim.speed) = [tripA, tripB] := by
    norm_num [dueBatch, batchSim, tripA, tripB, tripC, List.takeWhile]
  have hpct : round ((((0 + (2 : Nat) : Nat) : ℚ) / ((3 : Nat) : ℚ)) * 100) = (67 : ℤ) := by
    norm_num [round_eq]
  rw [hdb] at h1 h2 h4
  refine ⟨h1, by rw [h2]; simp [batchSim], ?_⟩
  have h4' := h4 (by simp)
  rw [h4']
  norm_num [batchSim, round_eq]

/-- C9: an active entity whose animation started at time T with fixed
duration D is removed by any animation step at time ≥ T + D, and kept by any
step strictly between T and T + D with progress (now − T)/D lying in [0, 1]. -/
theorem active_entity_eviction (active : List (String × AnimatedTrip))
    (k : String) (a : AnimatedTrip) (T D now : ℚ) (hD : 0 < D)
    (ha : (k, a) ∈ active) (hT : a.animationStartTime = T)
    (huniq : ∀ e ∈ active, e.1 = k → e.2.animationStartTime = T) :
    (T + D ≤ now → ∀ b, (k, b) ∉ updateAnimations active now D) ∧
    (T < now → now < T + D →
      (k, { a with progress := (now - T) / D }) ∈ updateAnimations active now D ∧
      0 ≤ (now - T) / D ∧ (now - T) / D ≤ 1) := by
  constructor
  · intro hge b hb
    rw [updateAnimations, List.mem_filterMap] at hb
    obtain ⟨e, he, hfe⟩ := hb
    by_cases hlt : min ((now - e.2.animationStartTime) / D) 1 < 1
    · rw [if_pos hlt] at hfe
      have hk : e.1 = k := by
        simpa using congrArg Prod.fst (Option.some.inj hfe)
      have hTe : e.2.animationStartTime = T := huniq e he hk
      rw [hTe] at hlt
      have hql : (now - T) / D < 1 := by
        rcases min_lt_iff.mp hlt with h' | h'
        · exact h'
        · linarith
      have : now - T < D := (div_lt_one hD).mp hql
      linarith
    · rw [if_neg hlt] at hfe
      exact Option.noConfusion hfe
  · intro hlo hhi
    have hsub : now - T < D := by linarith
    have hql : (now - T) / D < 1 := (div_lt_one hD).mpr hsub
    have hmin : min ((now - T) / D) 1 = (now - T) / D := min_eq_left hql.le
    refine ⟨?_, div_nonneg (by linarith) hD.le, hql.le⟩
    rw [updateAnimations, List.mem_filterMap]
    refine ⟨(k, a), ha, ?_⟩
    simp only [hT, hmin]
    rw [if_pos (hmin ▸ hql)]
  
/-- Witness for the C9 theorem: an entity started at time 5 with duration 10
is present at time 8 with progress 3/10 and absent from any step at
time 20. -/
theorem active_entity_eviction_witness :
    ("x", { sampleActive with progress := 3 / 10 })
        ∈ updateAnimations [("x", sampleActive)] 8 10 ∧
    (0 : ℚ) ≤ 3 / 10 ∧ (3 / 10 : ℚ) ≤ 1 ∧
    (∀ b, ("x", b) ∉ updateAnimations [("x", sampleActive)] 20 10) := by
  have huniq : ∀ e ∈ [("x", sampleActive)], e.1 = "x" →
      e.2.animationStartTime = 5 := by
    intro e he hk
    rw [List.mem_singleton] at he
    subst he
    rfl
  have happ8 := active_entity_eviction [("x", sampleActive)] "x" sampleActive 5 10 8
    (by norm_num) (List.mem_singleton.mpr rfl) rfl huniq
  have happ20 := active_entity_eviction [("x", sampleActive)] "x" sampleActive 5 10 20
    (by norm_num) (List.mem_singleton.mpr rfl) rfl huniq
  obtain ⟨hmem, -, -⟩ := happ8.2 (by norm_num) (by norm_num)
  have h310 : ((8 : ℚ) - 5) / 10 = 3 / 10 := by norm_num
  rw [h310] at hmem
  exact ⟨hmem, by norm_num, by norm_num, happ20.1 (by norm_num)⟩
